import Mathlib

/-!
Shallow embedding of the trading-bot engine (`bot_engine.py`) for checking
its natural-language specification.  Money amounts, prices and fee rates
are modelled as exact rationals (`ℚ`); the Python `dict`-based config is a
structure holding exactly the keys the embedded code reads.
-/

namespace BotEngine

/-- The configuration keys read by the capital-snapshot and auto-exit code
(`self.config.get(...)` in `_execute_position_management` and
`_check_entry_conditions`). -/
structure Config where
  max_allowed_used : ℚ
  rate_divisor : ℚ
  leverage : ℚ
  trade_fee_percentage : ℚ
  use_pnl_auto_manual : Bool
  pnl_auto_manual_threshold : ℚ
  use_pnl_auto_cal : Bool
  pnl_auto_cal_times : ℚ
  use_pnl_auto_cal_loss : Bool
  pnl_auto_cal_loss_times : ℚ
  use_size_auto_cal : Bool
  size_auto_cal_times : ℚ
  use_size_auto_cal_loss : Bool
  size_auto_cal_loss_times : ℚ
  use_add_pos_profit_target : Bool
  add_pos_profit_multiplier : ℚ
  use_add_pos_above_zero : Bool
  deriving DecidableEq, Repr

/-- `bot_engine.py` 3627-3630: the configured `max_allowed_used` is clamped
to `total_equity` when `total_equity > 0 and max_allowed_config > total_equity`. -/
def maxAllowedMargin (cfg : Config) (totalEquity : ℚ) : ℚ :=
  if 0 < totalEquity ∧ totalEquity < cfg.max_allowed_used then totalEquity
  else cfg.max_allowed_used

/-- `bot_engine.py` 3637-3638: `leverage = float(...); if leverage <= 0: leverage = 1`. -/
def effLeverage (cfg : Config) : ℚ :=
  if cfg.leverage ≤ 0 then 1 else cfg.leverage

/-- `bot_engine.py` 2536-2537 (`_check_entry_conditions`):
`rate_divisor` is replaced by 1 when non-positive. -/
def effRateDivisor (cfg : Config) : ℚ :=
  if cfg.rate_divisor ≤ 0 then 1 else cfg.rate_divisor

/-- `bot_engine.py` 3632-3640 (`_execute_position_management`):
`self.remaining_amount_notional = max(0.0, (max_amount_margin * leverage) - used)`
with `max_amount_margin = max_allowed_margin / rate_divisor`. -/
def remainingAmountNotional (cfg : Config) (totalEquity usedNotional : ℚ) : ℚ :=
  max 0 ((maxAllowedMargin cfg totalEquity / cfg.rate_divisor) * effLeverage cfg - usedNotional)

/-- `bot_engine.py` 2538-2545 (`_check_entry_conditions`): the raw remaining
capacity `max_notional_capacity - used_amount_notional`. -/
def entryRemainingNotional (cfg : Config) (totalEquity usedNotional : ℚ) : ℚ :=
  (maxAllowedMargin cfg totalEquity / effRateDivisor cfg) * effLeverage cfg - usedNotional

/-- `bot_engine.py` 2548: `display_remaining = max(0.0, remaining_notional)`. -/
def entryDisplayRemaining (cfg : Config) (totalEquity usedNotional : ℚ) : ℚ :=
  max 0 (entryRemainingNotional cfg totalEquity usedNotional)

/-- `bot_engine.py` 3646: `trade_fee_pct = trade_fee_percentage / 100`. -/
def tradeFeePct (cfg : Config) : ℚ := cfg.trade_fee_percentage / 100

/-- `bot_engine.py` 3649: `self.size_fees = okx_pos_notional * trade_fee_pct`. -/
def sizeFees (cfg : Config) (posNotional : ℚ) : ℚ := posNotional * tradeFeePct cfg

/-- `bot_engine.py` 3660: real-time net profit subtracts round-trip fees:
`self.net_profit = total_unrealized_pnl - (self.size_fees * 2.0)`. -/
def netProfit (cfg : Config) (posNotional unrealizedPnl : ℚ) : ℚ :=
  unrealizedPnl - sizeFees cfg posNotional * 2

/-- Spec-side abbreviation: the round-trip (entry + exit leg) fee,
`size_fee × 2`. -/
def roundTripFee (cfg : Config) (posNotional : ℚ) : ℚ := sizeFees cfg posNotional * 2

/-- The auto-exit rules of `_execute_position_management`, in source order. -/
inductive ExitRule where
  | manualProfit
  | calProfit
  | calLoss
  | sizeProfit
  | sizeLoss
  | mode2Profit
  | mode1AboveZero
  deriving DecidableEq, Repr

/-- `bot_engine.py` 3757: `current_size_fee = okx_pos_notional * trade_fee_pct
if okx_pos_notional > 0 else 0.0`. -/
def autoExitFee (cfg : Config) (posNotional : ℚ) : ℚ :=
  if 0 < posNotional then sizeFees cfg posNotional else 0

/-- `bot_engine.py` 3755-3828: the auto-exit decision chain.  Each later
block is guarded by `not auto_exit_triggered`, so the translation is a nested
`if`.  `current_size_fee` is `okx_pos_notional * trade_fee_pct` whenever the
notional is positive (line 3757) and every calculated threshold multiplies it
by `2.0` (lines 3771, 3781, 3791, 3801, 3811, 3825). -/
def evaluateAutoExit (cfg : Config) (posNotional unrealizedPnl : ℚ) : Option ExitRule :=
  if cfg.use_pnl_auto_manual ∧
      cfg.pnl_auto_manual_threshold ≤ netProfit cfg posNotional unrealizedPnl then
    some .manualProfit
  else if cfg.use_pnl_auto_cal ∧ 0 < posNotional ∧
      cfg.pnl_auto_cal_times * (autoExitFee cfg posNotional * 2) ≤
        netProfit cfg posNotional unrealizedPnl then
    some .calProfit
  else if cfg.use_pnl_auto_cal_loss ∧ 0 < posNotional ∧
      netProfit cfg posNotional unrealizedPnl ≤
        -(autoExitFee cfg posNotional * 2 * cfg.pnl_auto_cal_loss_times) then
    some .calLoss
  else if cfg.use_size_auto_cal ∧ 0 < posNotional ∧
      autoExitFee cfg posNotional * 2 * cfg.size_auto_cal_times ≤
        netProfit cfg posNotional unrealizedPnl then
    some .sizeProfit
  else if cfg.use_size_auto_cal_loss ∧ 0 < posNotional ∧
      netProfit cfg posNotional unrealizedPnl ≤
        -(autoExitFee cfg posNotional * 2 * cfg.size_auto_cal_loss_times) then
    some .sizeLoss
  else if cfg.use_add_pos_profit_target ∧ 0 < posNotional ∧
      0 < unrealizedPnl ∧
      autoExitFee cfg posNotional * 2 * cfg.add_pos_profit_multiplier ≤ unrealizedPnl then
    some .mode2Profit
  else if cfg.use_add_pos_above_zero ∧ 0 < posNotional ∧
      -(max 1 (autoExitFee cfg posNotional * 2 * (1/10))) ≤
        netProfit cfg posNotional unrealizedPnl then
    some .mode1AboveZero
  else
    none

/-- Spec-side definition (from the spec's words): each exit rule evaluated
independently of the others. -/
def ruleMatches (cfg : Config) (posNotional unrealizedPnl : ℚ) : ExitRule → Bool
  | .manualProfit => decide (cfg.use_pnl_auto_manual ∧
      cfg.pnl_auto_manual_threshold ≤ netProfit cfg posNotional unrealizedPnl)
  | .calProfit => decide (cfg.use_pnl_auto_cal ∧ 0 < posNotional ∧
      cfg.pnl_auto_cal_times * (autoExitFee cfg posNotional * 2) ≤
        netProfit cfg posNotional unrealizedPnl)
  | .calLoss => decide (cfg.use_pnl_auto_cal_loss ∧ 0 < posNotional ∧
      netProfit cfg posNotional unrealizedPnl ≤
        -(autoExitFee cfg posNotional * 2 * cfg.pnl_auto_cal_loss_times))
  | .sizeProfit => decide (cfg.use_size_auto_cal ∧ 0 < posNotional ∧
      autoExitFee cfg posNotional * 2 * cfg.size_auto_cal_times ≤
        netProfit cfg posNotional unrealizedPnl)
  | .sizeLoss => decide (cfg.use_size_auto_cal_loss ∧ 0 < posNotional ∧
      netProfit cfg posNotional unrealizedPnl ≤
        -(autoExitFee cfg posNotional * 2 * cfg.size_auto_cal_loss_times))
  | .mode2Profit => decide (cfg.use_add_pos_profit_target ∧ 0 < posNotional ∧
      0 < unrealizedPnl ∧
      autoExitFee cfg posNotional * 2 * cfg.add_pos_profit_multiplier ≤ unrealizedPnl)
  | .mode1AboveZero => decide (cfg.use_add_pos_above_zero ∧ 0 < posNotional ∧
      -(max 1 (autoExitFee cfg posNotional * 2 * (1/10))) ≤
        netProfit cfg posNotional unrealizedPnl)

/-- Spec-side fixed priority order: the explicit manual threshold first,
then the calculated variants, in source order. -/
def autoExitPriority : List ExitRule :=
  [.manualProfit, .calProfit, .calLoss, .sizeProfit, .sizeLoss, .mode2Profit, .mode1AboveZero]

/-- The concrete configuration of spec scenario 5: fee rate 0.08 %,
`pnl_auto_cal_times = 4`, only the auto-cal profit rule enabled. -/
def c2Config : Config :=
  { max_allowed_used := 1000, rate_divisor := 1, leverage := 10
    trade_fee_percentage := 8/100
    use_pnl_auto_manual := false, pnl_auto_manual_threshold := 100
    use_pnl_auto_cal := true, pnl_auto_cal_times := 4
    use_pnl_auto_cal_loss := false, pnl_auto_cal_loss_times := 3/2
    use_size_auto_cal := false, size_auto_cal_times := 2
    use_size_auto_cal_loss := false, size_auto_cal_loss_times := 3/2
    use_add_pos_profit_target := false, add_pos_profit_multiplier := 3/2
    use_add_pos_above_zero := false }

/-- The concrete configuration of spec scenario 1
(equity 1000, max_allowed_used 1000, leverage 10, rate_divisor 2). -/
def c1Config : Config :=
  { max_allowed_used := 1000, rate_divisor := 2, leverage := 10
    trade_fee_percentage := 8/100
    use_pnl_auto_manual := false, pnl_auto_manual_threshold := 100
    use_pnl_auto_cal := false, pnl_auto_cal_times := 4
    use_pnl_auto_cal_loss := false, pnl_auto_cal_loss_times := 3/2
    use_size_auto_cal := false, size_auto_cal_times := 2
    use_size_auto_cal_loss := false, size_auto_cal_loss_times := 3/2
    use_add_pos_profit_target := false, add_pos_profit_multiplier := 3/2
    use_add_pos_above_zero := false }

/-- Position sides, the engine's `'long'`/`'short'` dictionary keys. -/
inductive Side where
  | long
  | short
  deriving DecidableEq, Repr

/-- `bot_engine.py` 1832/1843 (`_confirm_and_set_active_position`): the order
side used for exit orders: sell closes a long, buy closes a short. -/
def exitOrderSide : Side → String
  | .long => "sell"
  | .short => "buy"

/-- `bot_engine.py` 1817-1843: the TP price is the configured offset applied
to the actual average entry price reported by the exchange (`avgPx`); it is
left at 0 when the offset is unset or non-positive. -/
def confirmTpPrice (side : Side) (avgEntry tpOff : ℚ) : ℚ :=
  if 0 < tpOff then
    match side with
    | .long => avgEntry + tpOff
    | .short => avgEntry - tpOff
  else 0

/-- `bot_engine.py` 1817-1843: the SL price from the configured offset,
relative to the actual average entry price. -/
def confirmSlPrice (side : Side) (avgEntry slOff : ℚ) : ℚ :=
  if 0 < slOff then
    match side with
    | .long => avgEntry - slOff
    | .short => avgEntry + slOff
  else 0

/-- The fields of the algo (conditional) order body relevant to the claims:
`side`, `posSide`, the trigger price and the `reduceOnly` flag
(`bot_engine.py` 1899-1909 and 1931-1941). -/
structure AlgoOrderBody where
  side : String
  posSide : Side
  triggerPx : ℚ
  reduceOnly : Bool
  deriving DecidableEq, Repr

/-- `bot_engine.py` 1899-1909: the TP conditional-order body; `reduceOnly`
is always the string `"true"`. -/
def tpOrderBody (side : Side) (avgEntry tpOff : ℚ) : AlgoOrderBody :=
  { side := exitOrderSide side, posSide := side
    triggerPx := confirmTpPrice side avgEntry tpOff, reduceOnly := true }

/-- `bot_engine.py` 1931-1941: the SL conditional-order body; `reduceOnly`
is always the string `"true"`. -/
def slOrderBody (side : Side) (avgEntry slOff : ℚ) : AlgoOrderBody :=
  { side := exitOrderSide side, posSide := side
    triggerPx := confirmSlPrice side avgEntry slOff, reduceOnly := true }

/-- Result of `_okx_place_algo_order`: an id on success, otherwise failure. -/
inductive PlaceResult where
  | ok (algoId : String)
  | fail
  deriving DecidableEq, Repr

/-- Observable outcome of the TP/SL attachment block of
`_confirm_and_set_active_position` (`bot_engine.py` 1868-1962): which bodies
were sent, which exit-order ids were recorded in `position_exit_orders`,
whether `_execute_trade_exit` was triggered, and whether an exception was
raised (and then caught by the outer handler at line 1961, skipping every
later step of the function). -/
structure AttachOutcome where
  tpPlaced : Option AlgoOrderBody
  slPlaced : Option AlgoOrderBody
  tpRecorded : Option String
  slRecorded : Option String
  emergencyExit : Bool
  raisedError : Option String
  deriving DecidableEq, Repr

/-- `bot_engine.py` 1929-1959: the SL half of the attachment block, entered
with the TP results so far.  In the `existing_sl` branch (line 1957) the
code reads the local variable `sl_order`, which is assigned only in the
`not existing_sl` branch (line 1943), so Python raises an unbound-local
error there. -/
def slAttachStep (existingSl : Bool) (slRes : PlaceResult) (side : Side)
    (avgEntry slOff : ℚ) (tpPlaced : Option AlgoOrderBody) (tpRecorded : Option String) :
    AttachOutcome :=
  if existingSl then
    { tpPlaced := tpPlaced, slPlaced := none, tpRecorded := tpRecorded, slRecorded := none
      emergencyExit := false, raisedError := some ("UnboundLocalError: sl_order") }
  else if 0 < slOff then
    match slRes with
    | .ok slId =>
      { tpPlaced := tpPlaced, slPlaced := some (slOrderBody side avgEntry slOff)
        tpRecorded := tpRecorded, slRecorded := some slId
        emergencyExit := false, raisedError := none }
    | .fail =>
      { tpPlaced := tpPlaced, slPlaced := some (slOrderBody side avgEntry slOff)
        tpRecorded := tpRecorded, slRecorded := none
        emergencyExit := true, raisedError := none }
  else
    { tpPlaced := tpPlaced, slPlaced := none, tpRecorded := tpRecorded, slRecorded := none
      emergencyExit := false, raisedError := none }

/-- `bot_engine.py` 1897-1959: the full TP/SL attachment block after a
position is confirmed at `avgEntry` (the exchange-reported average price).
`requestedLimit` is the limit price of the original entry order; the code
never reads it here.  In the `existing_tp` branch (line 1925) the code reads
the local variable `tp_order`, assigned only in the `not existing_tp` branch
(line 1911), so Python raises an unbound-local error there and the entire SL
half is skipped. -/
def attachExitOrders (existingTp existingSl : Bool) (tpRes slRes : PlaceResult)
    (side : Side) (avgEntry requestedLimit tpOff slOff : ℚ) : AttachOutcome :=
  if existingTp then
    { tpPlaced := none, slPlaced := none, tpRecorded := none, slRecorded := none
      emergencyExit := false, raisedError := some ("UnboundLocalError: tp_order") }
  else if 0 < tpOff then
    match tpRes with
    | .ok tpId =>
      slAttachStep existingSl slRes side avgEntry slOff
        (some (tpOrderBody side avgEntry tpOff)) (some tpId)
    | .fail =>
      { tpPlaced := some (tpOrderBody side avgEntry tpOff), slPlaced := none
        tpRecorded := none, slRecorded := none
        emergencyExit := true, raisedError := none }
  else
    slAttachStep existingSl slRes side avgEntry slOff none none

/-- The configuration keys read by `_check_cancel_conditions`
(`bot_engine.py` 2822, 2909, 2924). -/
structure CancelConfig where
  cancel_unfilled_seconds : ℚ
  cancel_on_entry_price_below_market : Bool
  cancel_on_entry_price_above_market : Bool
  deriving DecidableEq, Repr

/-- A tracked pending entry as kept in `pending_entry_order_details`:
signal +1 for Long, -1 for Short, the limit price, and the placement time
(seconds). -/
structure PendingEntryDetail where
  signal : Int
  limit_price : ℚ
  placed_at : ℚ
  deriving DecidableEq, Repr

/-- `bot_engine.py` 2843-2846: the age check
`(now - placed_at).total_seconds() > cancel_unfilled_seconds`. -/
def entryTimePassed (ccfg : CancelConfig) (d : PendingEntryDetail) (now : ℚ) : Prop :=
  ccfg.cancel_unfilled_seconds < now - d.placed_at

instance (ccfg : CancelConfig) (d : PendingEntryDetail) (now : ℚ) :
    Decidable (entryTimePassed ccfg d now) := by
  unfold entryTimePassed
  infer_instance

/-- `bot_engine.py` 2843-2944: whether the cancellation sweep cancels a
tracked pending entry.  The time check (lines 2850-2866) cancels
unconditionally; otherwise the literal config checks run: a Short entry
(signal -1) is cancelled when `cancel_on_entry_price_below_market` is set
and `limit_price < market` (line 2909); a Long entry (signal 1) is cancelled
when `cancel_on_entry_price_above_market` is set and `limit_price > market`
(line 2924).  The TP-based rules are commented out in the source. -/
def shouldCancelPending (ccfg : CancelConfig) (d : PendingEntryDetail)
    (now market : ℚ) : Bool :=
  if entryTimePassed ccfg d now then true
  else if d.signal = -1 then
    ccfg.cancel_on_entry_price_below_market && decide (d.limit_price < market)
  else if d.signal = 1 then
    ccfg.cancel_on_entry_price_above_market && decide (market < d.limit_price)
  else false

/-- A cancellation config with both literal price rules enabled and a 90 s
unfilled timeout. -/
def c6Config : CancelConfig :=
  { cancel_unfilled_seconds := 90
    cancel_on_entry_price_below_market := true
    cancel_on_entry_price_above_market := true }

/-- The decoded JSON envelope of an exchange response, reduced to the field
`_okx_request` inspects: the application-level `code`. -/
structure Envelope where
  code : Option String
  deriving DecidableEq, Repr

/-- Python truthiness of `error_json.get('code')` at `bot_engine.py` 691:
absent or empty string is falsy. -/
def codeTruthy : Option String → Bool
  | none => false
  | some s => !(s == "")

/-- `bot_engine.py` 682: the invalid-credential classification:
`okx_error_code in ['50110', '50111', '50113'] or status == 401`. -/
def isCredCode (status : Nat) (c : Option String) : Bool :=
  c == some ("50110") || c == some ("50111") || c == some ("50113") || status == 401

/-- What one attempt of the `_okx_request` loop observes: an HTTP response
with a status and an optionally JSON-decodable body, a timeout, a requests
exception, or any other exception (`bot_engine.py` 659-734). -/
inductive AttemptOutcome where
  | response (status : Nat) (decoded : Option Envelope)
  | timeout
  | reqException
  | otherError
  deriving DecidableEq, Repr

/-- The observable behaviour of one `_okx_request` call: the returned value
(`None` or a decoded envelope), the `credentials_invalid` flag afterwards,
the backoff sleeps performed (in seconds, `2 ** attempt`), and how many
attempts were consumed. -/
structure ReqResult where
  result : Option Envelope
  credFlag : Bool
  sleeps : List Nat
  attemptsMade : Nat
  deriving DecidableEq, Repr

/-- `bot_engine.py` 655-735: the retry loop of `_okx_request`, given the
outcome each attempt would observe.  `attempt` is the current loop index and
`remaining` the attempts left (`max_retries - attempt`).  A non-200 response
whose body decodes to an envelope with a credential code returns it and sets
`credentials_invalid` (682-686); with any other truthy code it is returned
immediately (691-692); with a falsy code, or an undecodable body, the
attempt is retried (697-700).  A 200 response returns its decoded envelope
(702-707) or retries on decode failure (708-713); timeouts and exceptions
retry (715-734).  A retry sleeps `2 ** attempt` seconds unless it was the
last attempt (697-698); after the last attempt the function returns `None`. -/
def runOkxAux (attempt : Nat) : Nat → List AttemptOutcome → ReqResult
  | 0, _ => { result := none, credFlag := false, sleeps := [], attemptsMade := 0 }
  | remaining + 1, outs =>
    let r := runOkxAux (attempt + 1) remaining outs.tail
    let retry : ReqResult :=
      { result := r.result, credFlag := r.credFlag
        sleeps := match remaining with | 0 => [] | _ + 1 => 2 ^ attempt :: r.sleeps
        attemptsMade := r.attemptsMade + 1 }
    match outs.headD .otherError with
    | .response status decoded =>
      if status ≠ 200 then
        match decoded with
        | some env =>
          if isCredCode status env.code then
            { result := some env, credFlag := true, sleeps := [], attemptsMade := 1 }
          else if codeTruthy env.code then
            { result := some env, credFlag := false, sleeps := [], attemptsMade := 1 }
          else retry
        | none => retry
      else
        match decoded with
        | some env => { result := some env, credFlag := false, sleeps := [], attemptsMade := 1 }
        | none => retry
    | .timeout => retry
    | .reqException => retry
    | .otherError => retry

/-- `bot_engine.py` 623-625 then 655: `_okx_request` returns `None`
immediately when `credentials_invalid` is already set, otherwise it runs the
retry loop for `max_retries` attempts. -/
def okxRequest (credInvalid : Bool) (maxRetries : Nat) (outs : List AttemptOutcome) :
    ReqResult :=
  if credInvalid then { result := none, credFlag := true, sleeps := [], attemptsMade := 0 }
  else runOkxAux 0 maxRetries outs

/-- The attempt outcomes that send `_okx_request` to its retry path: a
timeout, a network or unexpected exception, a non-200 response whose body is
undecodable or carries no (truthy, non-credential) application code, or a
200 response with an undecodable body. -/
def retryableOutcome : AttemptOutcome → Bool
  | .response status decoded =>
    if status ≠ 200 then
      match decoded with
      | some env => !isCredCode status env.code && !codeTruthy env.code
      | none => true
    else decoded.isNone
  | .timeout => true
  | .reqException => true
  | .otherError => true

/-- A generic decodable non-200 error body with a non-credential code. -/
def errBody : Envelope := { code := some ("51000") }

/-- Operations requested on the non-reentrant `threading.Lock` assigned to
`self.position_lock` (`bot_engine.py` 235). -/
inductive LockOp where
  | acquire
  | release
  deriving DecidableEq, Repr

/-- One element of a WebSocket `positions` push, reduced to the fields
`_process_position_push` reads for side resolution and closure detection. -/
structure PosMsg where
  instId : String
  posSide : String
  pos : ℚ
  deriving DecidableEq, Repr

/-- `bot_engine.py` 1134-1139: map the raw `posSide` of a push to the local
side key; `net` positions follow the configured direction, with `both`
defaulting to `long`. -/
def resolveSideKey (direction raw : String) : String :=
  if raw = "short" then "short"
  else if raw = "net" then (if direction = "both" then "long" else direction)
  else "long"

/-- `bot_engine.py` 1150 and 1154: an update is significant when the
quantity moved by more than `0.000001`, and it is a closure when the new
quantity is zero while the previous one was nonzero. -/
def closureDetected (prevQty newQty : ℚ) : Bool :=
  decide (1 / 1000000 < |newQty - prevQty|) && decide (newQty = 0) &&
    decide (0 < |prevQty|)

/-- `bot_engine.py` 1124-1183: the sequence of `position_lock` operations
requested while `_process_position_push` runs: the outer `with
self.position_lock` (line 1124), then, for each message of the push whose
closure branch is entered, the nested `with self.position_lock` at line
1175 (acquire then release), and finally the outer release.  `prevQty` is
the snapshot `prev_qtys` taken at line 1126, which the loop reads for every
message. -/
def positionPushLockOps (symbol direction : String) (contractSize : ℚ)
    (prevQty : String → ℚ) (msgs : List PosMsg) : List LockOp :=
  [.acquire] ++
    (msgs.foldr (fun m acc =>
      (if m.instId = symbol &&
          closureDetected (prevQty (resolveSideKey direction m.posSide))
            (m.pos * contractSize) then
        [LockOp.acquire, LockOp.release]
      else []) ++ acc) []) ++
  [.release]

/-- A single thread self-deadlocks on a non-reentrant lock exactly when it
requests an acquire while it already holds the lock. -/
def selfDeadlocks : Nat → List LockOp → Bool
  | _, [] => false
  | held, LockOp.acquire :: rest =>
    if held ≠ 0 then true else selfDeadlocks 1 rest
  | held, LockOp.release :: rest => selfDeadlocks (held - 1) rest

/-- The per-side position dictionaries written by the reconciliation
operations: `self.in_position` and `self.position_qty`, keyed by the side
strings. -/
structure PosDicts where
  in_position : String → Bool
  position_qty : String → ℚ

/-- Pointwise dictionary update. -/
def dictSet {α : Type} (f : String → α) (k : String) (v : α) : String → α :=
  fun x => if x = k then v else f x

/-- `bot_engine.py` 1180-1182: the state update for one push message:
`in_position[side_key] = (abs(new_qty) > 0)` and
`position_qty[side_key] = new_qty` with `new_qty = pos * contract_size`. -/
def applyPushMsg (symbol direction : String) (contractSize : ℚ)
    (st : PosDicts) (m : PosMsg) : PosDicts :=
  if m.instId = symbol then
    { in_position := dictSet st.in_position (resolveSideKey direction m.posSide)
        (decide (0 < |m.pos * contractSize|))
      position_qty := dictSet st.position_qty (resolveSideKey direction m.posSide)
        (m.pos * contractSize) }
  else st

/-- `bot_engine.py` 1128-1183: fold a whole `positions` push into the
per-side dictionaries, message by message. -/
def applyPositionPush (symbol direction : String) (contractSize : ℚ)
    (st : PosDicts) (msgs : List PosMsg) : PosDicts :=
  msgs.foldl (applyPushMsg symbol direction contractSize) st

/-- `bot_engine.py` 1845-1848 (`_confirm_and_set_active_position`): promote
a confirmed position: `in_position[side] = True`,
`position_qty[side] = actual_qty`. -/
def confirmActivate (st : PosDicts) (side : String) (actualQty : ℚ) : PosDicts :=
  { in_position := dictSet st.in_position side true
    position_qty := dictSet st.position_qty side actualQty }

/-- `bot_engine.py` 2023-2025 (`_execute_trade_exit`): the authoritative
reset replaces both dictionaries with flat values. -/
def authoritativeReset (_st : PosDicts) : PosDicts :=
  { in_position := fun _ => false, position_qty := fun _ => 0 }

/-- The C9 invariant: for every side key the `in_position` flag equals
whether that side's quantity is nonzero. -/
def PosInv (st : PosDicts) : Prop :=
  ∀ k : String, st.in_position k = decide (st.position_qty k ≠ 0)

/-- The all-flat initial dictionaries (`bot_engine.py` 221-224). -/
def flatDicts : PosDicts :=
  { in_position := fun _ => false, position_qty := fun _ => 0 }

/-- Interleaving state for two concurrent calls (A and B) of
`_execute_trade_exit` (`bot_engine.py` 1970-2036).  Each thread's program
counter walks the body: 0 = the atomic check-and-set of
`authoritative_exit_in_progress` under `exit_lock` (1970-1974); 1 = fetch
live positions from the exchange (1981-1983); 2 = market-close every
nonzero position found (1985-2015); 3 = batch-cancel all pending orders
(2020); 4 = reset all local tracking to flat (2022-2029), completing the
sweep; 5 = clear the in-flight flag in `finally` (2033-2035); 6 = returned.
A thread whose check-and-set observes the flag already true returns
immediately as a no-op (1971-1973). -/
structure ExitSim where
  flag : Bool
  pcA : Nat
  pcB : Nat
  noopA : Bool
  noopB : Bool
  sweepsA : Nat
  sweepsB : Nat
  mutexBroken : Bool
  deriving DecidableEq, Repr

/-- A thread is inside the guarded sweep between its successful
check-and-set and its flag clear. -/
def inCritical (pc : Nat) : Bool := decide (1 ≤ pc) && decide (pc ≤ 5)

/-- One atomic step of a thread of `_execute_trade_exit`: given the shared
flag and the thread's program counter, the new flag, new counter, whether
the thread just no-opped on the flag, and whether it just completed the
full sweep. -/
def stepThread (flag : Bool) (pc : Nat) : Bool × Nat × Bool × Bool :=
  match pc with
  | 0 => if flag then (flag, 6, true, false) else (true, 1, false, false)
  | 4 => (flag, 5, false, true)
  | 5 => (false, 6, false, false)
  | 6 => (flag, 6, false, false)
  | p => (flag, p + 1, false, false)

/-- Advance the interleaving by one step of thread A (`who = true`) or B,
recording a mutual-exclusion violation whenever both threads are inside the
guarded sweep at once. -/
def stepSim (s : ExitSim) (who : Bool) : ExitSim :=
  let s2 :=
    if who then
      let t := stepThread s.flag s.pcA
      { s with
        flag := t.1
        pcA := t.2.1
        noopA := s.noopA || t.2.2.1
        sweepsA := s.sweepsA + (if t.2.2.2 then 1 else 0) }
    else
      let t := stepThread s.flag s.pcB
      { s with
        flag := t.1
        pcB := t.2.1
        noopB := s.noopB || t.2.2.1
        sweepsB := s.sweepsB + (if t.2.2.2 then 1 else 0) }
  { s2 with mutexBroken := s2.mutexBroken || (inCritical s2.pcA && inCritical s2.pcB) }

/-- Both triggers start outside the sweep with the in-flight flag clear. -/
def initExitSim : ExitSim :=
  { flag := false, pcA := 0, pcB := 0, noopA := false, noopB := false
    sweepsA := 0, sweepsB := 0, mutexBroken := false }

/-- Run a schedule of turns (`true` = thread A moves, `false` = thread B);
a turn given to a finished thread is a skip. -/
def runExitSim (sched : List Bool) : ExitSim :=
  sched.foldl stepSim initExitSim

/-- A schedule (A on turns 0 and 2-6, B on turn 1) where B's check-and-set
lands while A is mid-sweep. -/
def c5Sched : List Bool := [true, false, true, true, true, true, true]

/-- The inductive invariant of the two-trigger interleaving: program
counters stay in range, mutual exclusion of the guarded sweeps was never
broken, the in-flight flag is set exactly while some thread is inside the
guarded section, a no-op thread finished immediately and its partner did
not no-op, and each sweep counter is 1 exactly once its thread has passed
the sweep without having no-opped. -/
def exitInv (s : ExitSim) : Prop :=
  s.pcA ≤ 6 ∧ s.pcB ≤ 6 ∧ s.mutexBroken = false ∧
  ¬(inCritical s.pcA = true ∧ inCritical s.pcB = true) ∧
  (s.flag = true ↔ (inCritical s.pcA = true ∨ inCritical s.pcB = true)) ∧
  (s.noopA = true → s.pcA = 6 ∧ s.noopB = false) ∧
  (s.noopB = true → s.pcB = 6 ∧ s.noopA = false) ∧
  s.sweepsA = (if 5 ≤ s.pcA ∧ s.noopA = false then 1 else 0) ∧
  s.sweepsB = (if 5 ≤ s.pcB ∧ s.noopB = false then 1 else 0)

instance exitInvDecidable : DecidablePred exitInv := fun s => by
  unfold exitInv
  infer_instance

end BotEngine

open BotEngine

/-- C1: for every computed capital snapshot the remaining notional capacity
equals the clamped maximum-allowed notional times leverage divided by
`rate_divisor`, minus the used notional, floored at 0 for display; in
particular equity = 1000, max_allowed_used = 1000, leverage = 10,
rate_divisor = 2, used = 0 yields 5000 (at both computation sites). -/
theorem c1_remaining_notional_formula (cfg : Config) (totalEquity usedNotional : ℚ)
    (hrd : 0 < cfg.rate_divisor) (hlev : 0 < cfg.leverage) :
    remainingAmountNotional cfg totalEquity usedNotional =
      max 0 (maxAllowedMargin cfg totalEquity * cfg.leverage / cfg.rate_divisor - usedNotional) ∧
    entryDisplayRemaining cfg totalEquity usedNotional =
      max 0 (maxAllowedMargin cfg totalEquity * cfg.leverage / cfg.rate_divisor - usedNotional) ∧
    remainingAmountNotional c1Config 1000 0 = 5000 ∧
    entryDisplayRemaining c1Config 1000 0 = 5000 := by
  have hlev' : effLeverage cfg = cfg.leverage := if_neg (not_le.mpr hlev)
  have hrd' : effRateDivisor cfg = cfg.rate_divisor := if_neg (not_le.mpr hrd)
  refine ⟨?_, ?_, ?_, ?_⟩
  · rw [remainingAmountNotional, hlev', div_mul_eq_mul_div]
  · rw [entryDisplayRemaining, entryRemainingNotional, hlev', hrd', div_mul_eq_mul_div]
  · norm_num [remainingAmountNotional, maxAllowedMargin, effLeverage, c1Config]
  · norm_num [entryDisplayRemaining, entryRemainingNotional, maxAllowedMargin,
      effLeverage, effRateDivisor, c1Config]

/-- Witness for `c1_remaining_notional_formula` at the scenario-1 config. -/
theorem c1_remaining_notional_formula_witness :
    remainingAmountNotional c1Config 1000 0 = 5000 :=
  (c1_remaining_notional_formula c1Config 1000 0 (by norm_num [c1Config])
    (by norm_num [c1Config])).2.2.1

/-- Shared helper: the auto-exit chain of `_execute_position_management`
computes the first match of `ruleMatches` along the fixed priority list. -/
theorem evaluateAutoExit_eq_find (cfg : Config) (n upl : ℚ) :
    evaluateAutoExit cfg n upl = autoExitPriority.find? (ruleMatches cfg n upl) := by
  unfold evaluateAutoExit autoExitPriority
  split_ifs with h1 h2 h3 h4 h5 h6 h7
  · have p1 : ruleMatches cfg n upl .manualProfit = true := decide_eq_true h1
    rw [List.find?_cons_of_pos _ p1]
  all_goals have q1 : ¬ruleMatches cfg n upl .manualProfit = true :=
    fun hc => h1 (of_decide_eq_true hc)
  · have p2 : ruleMatches cfg n upl .calProfit = true := decide_eq_true h2
    rw [List.find?_cons_of_neg _ q1, List.find?_cons_of_pos _ p2]
  all_goals have q2 : ¬ruleMatches cfg n upl .calProfit = true :=
    fun hc => h2 (of_decide_eq_true hc)
  · have p3 : ruleMatches cfg n upl .calLoss = true := decide_eq_true h3
    rw [List.find?_cons_of_neg _ q1, List.find?_cons_of_neg _ q2,
      List.find?_cons_of_pos _ p3]
  all_goals have q3 : ¬ruleMatches cfg n upl .calLoss = true :=
    fun hc => h3 (of_decide_eq_true hc)
  · have p4 : ruleMatches cfg n upl .sizeProfit = true := decide_eq_true h4
    rw [List.find?_cons_of_neg _ q1, List.find?_cons_of_neg _ q2,
      List.find?_cons_of_neg _ q3, List.find?_cons_of_pos _ p4]
  all_goals have q4 : ¬ruleMatches cfg n upl .sizeProfit = true :=
    fun hc => h4 (of_decide_eq_true hc)
  · have p5 : ruleMatches cfg n upl .sizeLoss = true := decide_eq_true h5
    rw [List.find?_cons_of_neg _ q1, List.find?_cons_of_neg _ q2,
      List.find?_cons_of_neg _ q3, List.find?_cons_of_neg _ q4,
      List.find?_cons_of_pos _ p5]
  all_goals have q5 : ¬ruleMatches cfg n upl .sizeLoss = true :=
    fun hc => h5 (of_decide_eq_true hc)
  · have p6 : ruleMatches cfg n upl .mode2Profit = true := decide_eq_true h6
    rw [List.find?_cons_of_neg _ q1, List.find?_cons_of_neg _ q2,
      List.find?_cons_of_neg _ q3, List.find?_cons_of_neg _ q4,
      List.find?_cons_of_neg _ q5, List.find?_cons_of_pos _ p6]
  all_goals have q6 : ¬ruleMatches cfg n upl .mode2Profit = true :=
    fun hc => h6 (of_decide_eq_true hc)
  · have p7 : ruleMatches cfg n upl .mode1AboveZero = true := decide_eq_true h7
    rw [List.find?_cons_of_neg _ q1, List.find?_cons_of_neg _ q2,
      List.find?_cons_of_neg _ q3, List.find?_cons_of_neg _ q4,
      List.find?_cons_of_neg _ q5, List.find?_cons_of_neg _ q6,
      List.find?_cons_of_pos _ p7]
  · have q7 : ¬ruleMatches cfg n upl .mode1AboveZero = true :=
      fun hc => h7 (of_decide_eq_true hc)
    rw [List.find?_cons_of_neg _ q1, List.find?_cons_of_neg _ q2,
      List.find?_cons_of_neg _ q3, List.find?_cons_of_neg _ q4,
      List.find?_cons_of_neg _ q5, List.find?_cons_of_neg _ q6,
      List.find?_cons_of_neg _ q7]
    rfl

/-- Shared helper: a rule returned by the auto-exit chain satisfies its own
matching condition. -/
theorem evaluateAutoExit_matches (cfg : Config) (n upl : ℚ) (r : ExitRule)
    (h : evaluateAutoExit cfg n upl = some r) : ruleMatches cfg n upl r = true := by
  rw [evaluateAutoExit_eq_find] at h
  exact List.find?_some h

/-- C2: every auto-exit profit- or loss-target comparison in
`_execute_position_management` uses the round-trip fee (`size_fee × 2`),
never the single-leg fee; with notional 10000, fee rate 0.08 % and
`pnl_auto_cal_times = 4` the auto-cal profit threshold is 64 and the exit
triggers exactly when net profit reaches 64 (63.99 does not). -/
theorem c2_round_trip_fee_thresholds (cfg : Config) (n upl : ℚ) :
    (evaluateAutoExit cfg n upl = some .calProfit →
      cfg.pnl_auto_cal_times * roundTripFee cfg n ≤ netProfit cfg n upl) ∧
    (evaluateAutoExit cfg n upl = some .calLoss →
      netProfit cfg n upl ≤ -(roundTripFee cfg n * cfg.pnl_auto_cal_loss_times)) ∧
    (evaluateAutoExit cfg n upl = some .sizeProfit →
      roundTripFee cfg n * cfg.size_auto_cal_times ≤ netProfit cfg n upl) ∧
    (evaluateAutoExit cfg n upl = some .sizeLoss →
      netProfit cfg n upl ≤ -(roundTripFee cfg n * cfg.size_auto_cal_loss_times)) ∧
    (evaluateAutoExit cfg n upl = some .mode2Profit →
      roundTripFee cfg n * cfg.add_pos_profit_multiplier ≤ upl) ∧
    c2Config.pnl_auto_cal_times * roundTripFee c2Config 10000 = 64 ∧
    (∀ u : ℚ, evaluateAutoExit c2Config 10000 u = some .calProfit ↔
      64 ≤ netProfit c2Config 10000 u) ∧
    evaluateAutoExit c2Config 10000 80 = some .calProfit ∧
    netProfit c2Config 10000 80 = 64 ∧
    evaluateAutoExit c2Config 10000 (7999/100) = none ∧
    netProfit c2Config 10000 (7999/100) = 6399/100 := by
  have hnp : ∀ u : ℚ, netProfit c2Config 10000 u = u - 16 := by
    intro u
    norm_num [c2Config, netProfit, sizeFees, tradeFeePct]
  have heval : ∀ u : ℚ, evaluateAutoExit c2Config 10000 u =
      if 64 ≤ u - 16 then some ExitRule.calProfit else none := by
    intro u
    unfold evaluateAutoExit autoExitFee
    norm_num [c2Config, netProfit, sizeFees, tradeFeePct]
  have hiff : ∀ u : ℚ, evaluateAutoExit c2Config 10000 u = some .calProfit ↔
      64 ≤ netProfit c2Config 10000 u := by
    intro u
    rw [heval, hnp]
    by_cases h : 64 ≤ u - 16
    · simp [h]
    · simp [h]
  have hnone : ∀ u : ℚ, netProfit c2Config 10000 u < 64 →
      evaluateAutoExit c2Config 10000 u = none := by
    intro u hu
    rw [hnp] at hu
    rw [heval, if_neg (not_le.mpr hu)]
  refine ⟨?_, ?_, ?_, ?_, ?_, ?_, hiff, ?_, ?_, ?_, ?_⟩
  · intro h
    have hm := of_decide_eq_true (evaluateAutoExit_matches cfg n upl _ h)
    have hfee : autoExitFee cfg n = sizeFees cfg n := if_pos hm.2.1
    have := hm.2.2
    rw [hfee] at this
    simpa [roundTripFee] using this
  · intro h
    have hm := of_decide_eq_true (evaluateAutoExit_matches cfg n upl _ h)
    have hfee : autoExitFee cfg n = sizeFees cfg n := if_pos hm.2.1
    have := hm.2.2
    rw [hfee] at this
    simpa [roundTripFee] using this
  · intro h
    have hm := of_decide_eq_true (evaluateAutoExit_matches cfg n upl _ h)
    have hfee : autoExitFee cfg n = sizeFees cfg n := if_pos hm.2.1
    have := hm.2.2
    rw [hfee] at this
    simpa [roundTripFee] using this
  · intro h
    have hm := of_decide_eq_true (evaluateAutoExit_matches cfg n upl _ h)
    have hfee : autoExitFee cfg n = sizeFees cfg n := if_pos hm.2.1
    have := hm.2.2
    rw [hfee] at this
    simpa [roundTripFee] using this
  · intro h
    have hm := of_decide_eq_true (evaluateAutoExit_matches cfg n upl _ h)
    have hfee : autoExitFee cfg n = sizeFees cfg n := if_pos hm.2.1
    have := hm.2.2.2
    rw [hfee] at this
    simpa [roundTripFee] using this
  · norm_num [c2Config, roundTripFee, sizeFees, tradeFeePct]
  · exact (hiff 80).mpr (by norm_num [c2Config, netProfit, sizeFees, tradeFeePct])
  · norm_num [c2Config, netProfit, sizeFees, tradeFeePct]
  · exact hnone _ (by norm_num [c2Config, netProfit, sizeFees, tradeFeePct])
  · norm_num [c2Config, netProfit, sizeFees, tradeFeePct]

/-- Witness for `c2_round_trip_fee_thresholds`: the scenario-5 exit fires at
net profit exactly 64. -/
theorem c2_round_trip_fee_thresholds_witness :
    evaluateAutoExit c2Config 10000 80 = some .calProfit :=
  (c2_round_trip_fee_thresholds c2Config 10000 80).2.2.2.2.2.2.2.1

/-- C3: the auto-exit evaluation returns the first matching rule of a fixed
priority list with the explicit manual profit threshold checked first and
the calculated variants after it; once a rule matches, no later rule is
evaluated or layered on top. -/
theorem c3_auto_exit_first_match (cfg : Config) (n upl : ℚ) :
    evaluateAutoExit cfg n upl = autoExitPriority.find? (ruleMatches cfg n upl) ∧
    autoExitPriority.head? = some .manualProfit :=
  ⟨evaluateAutoExit_eq_find cfg n upl, rfl⟩

/-- C4: a confirmed entry computes TP and SL from the configured offsets
relative to the exchange-reported average entry price — the requested limit
price does not enter the computation — and both exit orders carry
`reduceOnly`; for a Long confirmed at 2980 with offsets 10/20, TP is 2990
and SL is 2960. -/
theorem c4_tp_sl_from_actual_entry (avgEntry l1 l2 tpOff slOff : ℚ)
    (tpId slId : String) (htp : 0 < tpOff) (hsl : 0 < slOff) :
    (∀ (eTp eSl : Bool) (tr sr : PlaceResult) (s : Side),
      attachExitOrders eTp eSl tr sr s avgEntry l1 tpOff slOff =
        attachExitOrders eTp eSl tr sr s avgEntry l2 tpOff slOff) ∧
    confirmTpPrice .long avgEntry tpOff = avgEntry + tpOff ∧
    confirmSlPrice .long avgEntry slOff = avgEntry - slOff ∧
    confirmTpPrice .short avgEntry tpOff = avgEntry - tpOff ∧
    confirmSlPrice .short avgEntry slOff = avgEntry + slOff ∧
    (attachExitOrders false false (.ok tpId) (.ok slId) .long avgEntry l1 tpOff slOff).tpPlaced =
      some { side := "sell", posSide := .long, triggerPx := avgEntry + tpOff
             reduceOnly := true } ∧
    (attachExitOrders false false (.ok tpId) (.ok slId) .long avgEntry l1 tpOff slOff).slPlaced =
      some { side := "sell", posSide := .long, triggerPx := avgEntry - slOff
             reduceOnly := true } ∧
    (attachExitOrders false false (.ok tpId) (.ok slId) .long 2980 l1 10 20).tpPlaced =
      some { side := "sell", posSide := .long, triggerPx := 2990, reduceOnly := true } ∧
    (attachExitOrders false false (.ok tpId) (.ok slId) .long 2980 l1 10 20).slPlaced =
      some { side := "sell", posSide := .long, triggerPx := 2960, reduceOnly := true } := by
  refine ⟨fun _ _ _ _ _ => rfl, if_pos htp, if_pos hsl, if_pos htp, if_pos hsl, ?_, ?_, ?_, ?_⟩
  · simp [attachExitOrders, slAttachStep, tpOrderBody, confirmTpPrice, exitOrderSide,
      htp, hsl]
  · simp [attachExitOrders, slAttachStep, slOrderBody, confirmSlPrice, exitOrderSide,
      htp, hsl]
  · norm_num [attachExitOrders, slAttachStep, tpOrderBody, confirmTpPrice, exitOrderSide]
  · norm_num [attachExitOrders, slAttachStep, slOrderBody, confirmSlPrice, exitOrderSide]

/-- Witness for `c4_tp_sl_from_actual_entry`: the scenario-4 TP body. -/
theorem c4_tp_sl_from_actual_entry_witness :
    (attachExitOrders false false (.ok ("t1")) (.ok ("s1")) .long 2980 2978 10 20).tpPlaced =
      some { side := "sell", posSide := .long, triggerPx := 2990, reduceOnly := true } :=
  (c4_tp_sl_from_actual_entry 2980 2978 2975 10 20 ("t1") ("s1")
    (by norm_num) (by norm_num)).2.2.2.2.2.2.2.1

/-- C6 counterexample: a tracked Long pending entry at limit 100 with the
market at 101 (market greater than limit), not timed out, with both literal
cancellation rules enabled, is NOT cancelled — the code cancels a Long only
when the limit is above the market, the opposite of the claimed polarity. -/
theorem c6_long_market_above_limit_not_cancelled :
    shouldCancelPending c6Config ⟨1, 100, 0⟩ 10 101 = false ∧
    (100 : ℚ) < 101 ∧ ¬entryTimePassed c6Config ⟨1, 100, 0⟩ 10 := by
  refine ⟨?_, by norm_num, ?_⟩
  · norm_num [shouldCancelPending, entryTimePassed, c6Config]
  · norm_num [entryTimePassed, c6Config]

/-- C6 (amended): the sweep cancels a tracked pending entry exactly when its
age exceeds the configured unfilled timeout, or when the corresponding
literal config rule is enabled and fires — for a Long entry when the limit
price is above the market price, for a Short entry when the limit price is
below the market price. -/
theorem c6_cancel_conditions (ccfg : CancelConfig) (d : PendingEntryDetail)
    (now market : ℚ) (hsig : d.signal = 1 ∨ d.signal = -1) :
    shouldCancelPending ccfg d now market = true ↔
      (entryTimePassed ccfg d now ∨
       (d.signal = -1 ∧ ccfg.cancel_on_entry_price_below_market = true ∧
         d.limit_price < market) ∨
       (d.signal = 1 ∧ ccfg.cancel_on_entry_price_above_market = true ∧
         market < d.limit_price)) := by
  unfold shouldCancelPending
  rcases hsig with hs | hs <;> rw [hs] <;> split_ifs with h <;> simp_all

/-- Witness for `c6_cancel_conditions`: the timeout branch cancels. -/
theorem c6_cancel_conditions_witness :
    shouldCancelPending c6Config ⟨1, 100, 0⟩ 200 99 = true :=
  (c6_cancel_conditions c6Config ⟨1, 100, 0⟩ 200 99 (Or.inl rfl)).mpr
    (Or.inl (by norm_num [entryTimePassed, c6Config]))

/-- C10: when position confirmation finds an already-attached TP (or SL)
conditional order on the exchange, the branch recording the existing id
reads `tp_order` (resp. `sl_order`), a variable never assigned on that
path, so an unbound-local exception is raised, caught by the outer handler,
and every remaining TP/SL attachment and id-tracking step is skipped. -/
theorem c10_unbound_exit_order_variable (existingSl : Bool) (tpRes slRes : PlaceResult)
    (side : Side) (avgEntry lim tpOff slOff : ℚ) :
    attachExitOrders true existingSl tpRes slRes side avgEntry lim tpOff slOff =
      { tpPlaced := none, slPlaced := none, tpRecorded := none, slRecorded := none
        emergencyExit := false, raisedError := some ("UnboundLocalError: tp_order") } ∧
    (∀ tpId : String, 0 < tpOff →
      attachExitOrders false true (.ok tpId) slRes side avgEntry lim tpOff slOff =
        { tpPlaced := some (tpOrderBody side avgEntry tpOff), slPlaced := none
          tpRecorded := some tpId, slRecorded := none
          emergencyExit := false, raisedError := some ("UnboundLocalError: sl_order") }) := by
  refine ⟨rfl, fun tpId h => ?_⟩
  simp [attachExitOrders, slAttachStep, h]

/-- Witness for `c10_unbound_exit_order_variable` at a concrete input. -/
theorem c10_unbound_exit_order_variable_witness :
    attachExitOrders false true (.ok ("t1")) .fail .long 2980 2978 10 20 =
      { tpPlaced := some (tpOrderBody .long 2980 10), slPlaced := none
        tpRecorded := some ("t1"), slRecorded := none
        emergencyExit := false, raisedError := some ("UnboundLocalError: sl_order") } :=
  (c10_unbound_exit_order_variable true (.ok ("t1")) .fail .long 2980 2978 10 20).2
    ("t1") (by norm_num)

/-- Shared helper: a retryable outcome on the last allowed attempt makes the
loop return `None` with no further sleep. -/
theorem runOkxAux_retryable_last (attempt : Nat) (o : AttemptOutcome)
    (outs : List AttemptOutcome) (h : retryableOutcome o = true) :
    runOkxAux attempt 1 (o :: outs) =
      { result := none, credFlag := false, sleeps := [], attemptsMade := 1 } := by
  cases o with
  | response status decoded =>
    by_cases hs : status = 200
    · subst hs
      cases decoded with
      | none => simp [runOkxAux]
      | some env => simp [retryableOutcome] at h
    · cases decoded with
      | none => simp [runOkxAux, hs]
      | some env =>
        simp only [retryableOutcome, if_pos hs, Bool.and_eq_true, Bool.not_eq_true'] at h
        simp [runOkxAux, hs, h.1, h.2]
  | timeout => simp [runOkxAux]
  | reqException => simp [runOkxAux]
  | otherError => simp [runOkxAux]

/-- Shared helper: a retryable outcome before the last attempt sleeps
`2 ^ attempt` seconds and continues the loop. -/
theorem runOkxAux_retryable_step (attempt r : Nat) (o : AttemptOutcome)
    (outs : List AttemptOutcome) (h : retryableOutcome o = true) :
    runOkxAux attempt (r + 2) (o :: outs) =
      { result := (runOkxAux (attempt + 1) (r + 1) outs).result
        credFlag := (runOkxAux (attempt + 1) (r + 1) outs).credFlag
        sleeps := 2 ^ attempt :: (runOkxAux (attempt + 1) (r + 1) outs).sleeps
        attemptsMade := (runOkxAux (attempt + 1) (r + 1) outs).attemptsMade + 1 } := by
  cases o with
  | response status decoded =>
    by_cases hs : status = 200
    · subst hs
      cases decoded with
      | none => simp [runOkxAux]
      | some env => simp [retryableOutcome] at h
    · cases decoded with
      | none => simp [runOkxAux, hs]
      | some env =>
        simp only [retryableOutcome, if_pos hs, Bool.and_eq_true, Bool.not_eq_true'] at h
        simp [runOkxAux, hs, h.1, h.2]
  | timeout => simp [runOkxAux]
  | reqException => simp [runOkxAux]
  | otherError => simp [runOkxAux]

/-- Shared helper: the exponential-backoff sleep list shifts by one power of
two per consumed attempt. -/
theorem backoff_map_shift (a n : Nat) :
    (List.range (n + 1)).map (fun i => 2 ^ (a + i)) =
      2 ^ a :: (List.range n).map (fun i => 2 ^ (a + 1 + i)) := by
  rw [List.range_succ_eq_map, List.map_cons, List.map_map, Nat.add_zero]
  congr 1
  apply List.map_congr_left
  intro i hi
  simp only [Function.comp_apply]
  congr 1
  omega

/-- Shared helper: when every attempt is retryable and enough outcomes are
supplied, the loop consumes all its attempts, sleeps `2 ^ attempt` seconds
between consecutive attempts, and ends with no result. -/
theorem runOkxAux_all_retryable (remaining : Nat) :
    ∀ (attempt : Nat) (outs : List AttemptOutcome),
      (∀ o ∈ outs, retryableOutcome o = true) → remaining ≤ outs.length →
      runOkxAux attempt remaining outs =
        { result := none, credFlag := false
          sleeps := (List.range (remaining - 1)).map (fun i => 2 ^ (attempt + i))
          attemptsMade := remaining } := by
  induction remaining with
  | zero => intro attempt outs h hl; rfl
  | succ r ih =>
    intro attempt outs h hl
    cases outs with
    | nil => simp at hl
    | cons o rest =>
      cases r with
      | zero =>
        rw [runOkxAux_retryable_last _ _ _ (h o (List.mem_cons_self o rest))]
        simp
      | succ r2 =>
        rw [runOkxAux_retryable_step _ _ _ _ (h o (List.mem_cons_self o rest))]
        rw [ih (attempt + 1) rest (fun x hx => h x (List.mem_cons_of_mem o hx))
          (by simpa using hl)]
        simp only [Nat.succ_sub_one]
        rw [← backoff_map_shift]

/-- C7 counterexample: with every attempt observing a non-200 response whose
body decodes to an error envelope with an application code, `_okx_request`
returns that envelope on the first attempt — no backoff sleep, no retry —
contradicting the claim that such responses are retried. -/
theorem c7_decodable_error_body_not_retried :
    okxRequest false 3 (List.replicate 3 (.response 500 (some errBody))) =
      { result := some errBody, credFlag := false, sleeps := [], attemptsMade := 1 } ∧
    500 ≠ 200 ∧ codeTruthy errBody.code = true := by
  refine ⟨?_, by norm_num, rfl⟩
  rfl

/-- C7 (amended): `_okx_request` returns `None` immediately when credentials
are already invalid; returns the decoded envelope of a 200 response at once;
returns a decodable non-200 error envelope carrying an application code
immediately without retrying (setting the credential flag for credential
codes); and retries with `2 ^ attempt`-second backoff only on timeout,
network or unexpected exceptions, undecodable bodies, or non-200 bodies
without a code, returning `None` after all `max_retries` attempts. -/
theorem c7_retry_and_return_semantics (m status : Nat) (env : Envelope)
    (rest outs : List AttemptOutcome) (hs : status ≠ 200) :
    (okxRequest true m outs =
      { result := none, credFlag := true, sleeps := [], attemptsMade := 0 }) ∧
    (okxRequest false (m + 1) (.response 200 (some env) :: rest) =
      { result := some env, credFlag := false, sleeps := [], attemptsMade := 1 }) ∧
    (isCredCode status env.code = false → codeTruthy env.code = true →
      okxRequest false (m + 1) (.response status (some env) :: rest) =
        { result := some env, credFlag := false, sleeps := [], attemptsMade := 1 }) ∧
    (isCredCode status env.code = true →
      okxRequest false (m + 1) (.response status (some env) :: rest) =
        { result := some env, credFlag := true, sleeps := [], attemptsMade := 1 }) ∧
    ((∀ o ∈ outs, retryableOutcome o = true) → m ≤ outs.length →
      okxRequest false m outs =
        { result := none, credFlag := false
          sleeps := (List.range (m - 1)).map (fun i => 2 ^ i)
          attemptsMade := m }) := by
  refine ⟨rfl, ?_, ?_, ?_, ?_⟩
  · simp [okxRequest, runOkxAux]
  · intro h1 h2
    simp [okxRequest, runOkxAux, hs, h1, h2]
  · intro h1
    simp [okxRequest, runOkxAux, hs, h1]
  · intro h hl
    rw [okxRequest, if_neg (by simp), runOkxAux_all_retryable m 0 outs h hl]
    simp

/-- Witness for `c7_retry_and_return_semantics`: three timeouts consume all
three default retries with backoff sleeps of 1 and 2 seconds. -/
theorem c7_retry_and_return_semantics_witness :
    okxRequest false 3 [.timeout, .timeout, .timeout] =
      { result := none, credFlag := false, sleeps := [1, 2], attemptsMade := 3 } := by
  have h := (c7_retry_and_return_semantics 3 500 errBody [] [.timeout, .timeout, .timeout]
    (by norm_num)).2.2.2.2 (by intro o ho; fin_cases ho <;> rfl) (by norm_num)
  simpa using h

/-- C8: `_process_position_push` takes `position_lock` at line 1124 and,
whenever the closure branch fires for a message, re-acquires the same
non-reentrant `threading.Lock` at line 1175 while still holding it, so the
thread blocks forever; a push without a closure releases the lock
normally. -/
theorem c8_position_push_closure_deadlocks :
    selfDeadlocks 0 (positionPushLockOps ("ETH-USDT-SWAP") ("long") 1
      (fun _ => (1 : ℚ))
      [{ instId := "ETH-USDT-SWAP", posSide := "long", pos := 0 }]) = true ∧
    positionPushLockOps ("ETH-USDT-SWAP") ("long") 1
      (fun _ => (1 : ℚ))
      [{ instId := "ETH-USDT-SWAP", posSide := "long", pos := 0 }] =
      [.acquire, .acquire, .release, .release] ∧
    selfDeadlocks 0 (positionPushLockOps ("ETH-USDT-SWAP") ("long") 1
      (fun _ => (1 : ℚ))
      [{ instId := "ETH-USDT-SWAP", posSide := "long", pos := 2 }]) = false := by
  have hops : positionPushLockOps ("ETH-USDT-SWAP") ("long") 1
      (fun _ => (1 : ℚ))
      [{ instId := "ETH-USDT-SWAP", posSide := "long", pos := 0 }] =
      [.acquire, .acquire, .release, .release] := by
    norm_num [positionPushLockOps, closureDetected, resolveSideKey]
  have hops2 : positionPushLockOps ("ETH-USDT-SWAP") ("long") 1
      (fun _ => (1 : ℚ))
      [{ instId := "ETH-USDT-SWAP", posSide := "long", pos := 2 }] =
      [.acquire, .release] := by
    norm_num [positionPushLockOps, closureDetected, resolveSideKey]
  refine ⟨?_, hops, ?_⟩
  · rw [hops]; rfl
  · rw [hops2]; rfl

/-- Shared helper: one push message keeps the C9 invariant. -/
theorem applyPushMsg_preserves (symbol direction : String) (contractSize : ℚ)
    (st : PosDicts) (m : PosMsg) (h : PosInv st) :
    PosInv (applyPushMsg symbol direction contractSize st m) := by
  unfold applyPushMsg
  split_ifs with hm
  · intro k
    by_cases hk : k = resolveSideKey direction m.posSide
    · simp [dictSet, hk, abs_pos]
    · simpa [dictSet, hk] using h k
  · exact h

/-- C9: for every side, after any of the position-reconciliation operations
completes — folding a WebSocket positions push, promoting a confirmed
position, or the authoritative-exit reset — the `in_position` flag equals
whether that side's quantity is nonzero. -/
theorem c9_in_position_iff_nonzero_qty (symbol direction : String)
    (contractSize : ℚ) (st : PosDicts) (msgs : List PosMsg) (side : String) (q : ℚ) :
    (PosInv st → PosInv (applyPositionPush symbol direction contractSize st msgs)) ∧
    (PosInv st → 0 < |q| → PosInv (confirmActivate st side q)) ∧
    PosInv (authoritativeReset st) := by
  refine ⟨?_, ?_, fun k => by simp [authoritativeReset]⟩
  · intro hinv
    induction msgs generalizing st with
    | nil => exact hinv
    | cons m rest ih =>
      exact ih _ (applyPushMsg_preserves symbol direction contractSize st m hinv)
  · intro hinv hq
    intro k
    by_cases hk : k = side
    · simp [confirmActivate, dictSet, hk, abs_pos.mp hq]
    · simpa [confirmActivate, dictSet, hk] using hinv k

/-- Witness for `c9_in_position_iff_nonzero_qty` at flat dictionaries. -/
theorem c9_in_position_iff_nonzero_qty_witness :
    PosInv (confirmActivate flatDicts ("long") 1) :=
  (c9_in_position_iff_nonzero_qty ("X") ("long") 1 flatDicts [] ("long") 1).2.1
    (fun k => by simp [flatDicts]) (by norm_num)

/-- Shared helper: one step of either thread preserves the interleaving
invariant (finite check over the bounded reachable states). -/
theorem exitInv_step_bounded :
    ∀ (who flag nA nB : Bool), ∀ pA ≤ 6, ∀ pB ≤ 6,
      exitInv
        { flag := flag, pcA := pA, pcB := pB, noopA := nA, noopB := nB
          sweepsA := (if 5 ≤ pA ∧ nA = false then 1 else 0)
          sweepsB := (if 5 ≤ pB ∧ nB = false then 1 else 0)
          mutexBroken := false } →
      exitInv (stepSim
        { flag := flag, pcA := pA, pcB := pB, noopA := nA, noopB := nB
          sweepsA := (if 5 ≤ pA ∧ nA = false then 1 else 0)
          sweepsB := (if 5 ≤ pB ∧ nB = false then 1 else 0)
          mutexBroken := false } who) := by
  decide

/-- Shared helper: the invariant is preserved by any step from any state
satisfying it. -/
theorem exitInv_step (s : ExitSim) (who : Bool) (h : exitInv s) :
    exitInv (stepSim s who) := by
  obtain ⟨h1, h2, h3, h4, h5, h6, h7, h8, h9⟩ := h
  rcases s with ⟨flag, pA, pB, nA, nB, sA, sB, mB⟩
  simp only at h1 h2 h3 h4 h5 h6 h7 h8 h9
  subst h3
  rw [h8, h9]
  exact exitInv_step_bounded who flag nA nB pA h1 pB h2
    ⟨h1, h2, rfl, h4, h5, h6, h7, rfl, rfl⟩

/-- Shared helper: the invariant holds along any schedule started in an
invariant state. -/
theorem exitInv_run_from : ∀ (sched : List Bool) (s : ExitSim),
    exitInv s → exitInv (sched.foldl stepSim s)
  | [], _, h => h
  | w :: rest, s, h => exitInv_run_from rest (stepSim s w) (exitInv_step s w h)

/-- Shared helper: the invariant holds after running any schedule. -/
theorem exitInv_run (sched : List Bool) : exitInv (runExitSim sched) :=
  exitInv_run_from sched initExitSim (by decide)

/-- C5: over every interleaving of two concurrent triggers of the
authoritative exit that runs both calls to completion, the in-flight flag
kept the two sweeps mutually exclusive, at least one full sweep ran, and
whenever one trigger observed the flag and returned immediately as a no-op,
the other performed exactly one full sweep. -/
theorem c5_authoritative_exit_single_sweep (sched : List Bool)
    (hA : (runExitSim sched).pcA = 6) (hB : (runExitSim sched).pcB = 6) :
    (runExitSim sched).mutexBroken = false ∧
    1 ≤ (runExitSim sched).sweepsA + (runExitSim sched).sweepsB ∧
    ((runExitSim sched).noopB = true →
      (runExitSim sched).sweepsA = 1 ∧ (runExitSim sched).sweepsB = 0) ∧
    ((runExitSim sched).noopA = true →
      (runExitSim sched).sweepsB = 1 ∧ (runExitSim sched).sweepsA = 0) := by
  obtain ⟨h1, h2, h3, h4, h5, h6, h7, h8, h9⟩ := exitInv_run sched
  refine ⟨h3, ?_, ?_, ?_⟩
  · rw [h8, h9, hA, hB]
    rcases hnA : (runExitSim sched).noopA with _ | _
    · simp [hnA]
    · have := (h6 hnA).2
      simp [hnA, this]
  · intro hnB
    have hna := (h7 hnB).2
    rw [h8, h9, hA, hB]
    simp [hna, hnB]
  · intro hnA
    have hnb := (h6 hnA).2
    rw [h8, h9, hA, hB]
    simp [hnA, hnb]

/-- Witness for `c5_authoritative_exit_single_sweep`: in the schedule where
B's check-and-set lands while A is mid-sweep, B no-ops and A performs the
single sweep. -/
theorem c5_authoritative_exit_single_sweep_witness :
    (runExitSim c5Sched).sweepsA = 1 ∧ (runExitSim c5Sched).sweepsB = 0 :=
  (c5_authoritative_exit_single_sweep c5Sched (by decide) (by decide)).2.2.1 (by decide)
